import Mathlib

/-!
Shallow embedding of `src/kz/global/kz_global.cpp` (the KZ global-API client
of cs2kz-metamod): service state, the Heartbeat/Auth periodic tasks, and the
resource operations (fetch player, fetch map, register player, update player)
together with the classification their HTTP completion callbacks perform.

External boundaries (the HTTP transport, the JSON codec, and the field-level
(de)serializers of Player/Map) are modelled as parameters or as opaque-ish
records, exactly as the code treats them: the transport delivers one
`Response` per request, and decoding either yields a value or fails.
-/

set_option autoImplicit false

namespace KZGlobal

/-- An HTTP response as delivered by the `HTTP::Response` callback argument:
`status` is the HTTP status code, with `0` the transport-failure sentinel,
and `body` is `Response::Body()`, absent when the response had no body. -/
structure Response where
  status : Nat
  body : Option String
deriving Repr, DecidableEq

/-- Opaque resource record decoded from API response bodies. Its field-level
schema is owned externally; the only field this file ever reads is `name`
(used by the register follow-up chain in the source). -/
structure Player where
  name : String
deriving Repr, DecidableEq

/-- Opaque resource record decoded from API response bodies; its schema is
owned externally and never inspected by this file. -/
structure Map where
  name : String
deriving Repr, DecidableEq

/-- The normalized error value `KZ::API::Error`: an HTTP status (or the local
synthetic 503/401 of the operation gate) plus a message. The `details` field
of the source is parsed from the body by the constructor and never inspected
by any property here, so it is omitted. -/
structure Error where
  status : Nat
  message : String
deriving Repr, DecidableEq

/-- Modelled from the spec: the constructor `KZ::API::Error(status, rawBody)`
lives in `error.h`/`error.cpp`, which are not under `src/`. Per spec section 3
it stores the HTTP status verbatim and extracts a message best-effort from the
raw body; the exact extraction is irrelevant to every property proved here, so
the raw body stands in for the message. -/
def Error.ofResponse (status : Nat) (rawBody : String) : Error :=
  ⟨status, rawBody⟩

/-- HTTP request methods used by this translation unit. -/
inductive Method where
  | GET
  | POST
  | PATCH
deriving Repr, DecidableEq

/-- An outbound `HTTP::Request` as assembled by the source: method, URL, and
the optional `Authorization` header. Request bodies are produced by the
external JSON codec and never inspected by any property here, so they are
omitted from the record. -/
structure HTTPRequest where
  method : Method
  url : String
  authorization : Option String
deriving Repr, DecidableEq

/-- The static fields of `KZGlobalService` (kz_global.cpp lines 16-22), in
declaration order: the cached current map, the API base URL, the health flag,
the auth-timer guard, the configured API key, the cached auth payload, and
the access token. -/
structure GlobalState where
  currentMap : Option Map
  apiURL : String
  isHealthy : Bool
  authTimerInitialized : Bool
  apiKey : Option String
  authPayload : Option String
  apiToken : Option String
deriving Repr, DecidableEq

/-- Modelled from the spec: `KZGlobalService::IsHealthy()` is declared in
`kz_global.h`, which is not under `src/`; per spec section 4.4 the gate
consults the `isHealthy` flag. -/
def GlobalState.IsHealthy (s : GlobalState) : Bool :=
  s.isHealthy

/-- Modelled from the spec: `KZGlobalService::IsAuthenticated()` is declared
in `kz_global.h`, which is not under `src/`; per spec section 4.4
authentication is present exactly when an access token is set. -/
def GlobalState.IsAuthenticated (s : GlobalState) : Bool :=
  s.apiToken.isSome

/-- The caller-owned `KZPlayer` fields this translation unit reads:
`GetName()`, `GetSteamId64()` (a u64, rendered in decimal), and
`GetIpAddress()`. -/
structure KZPlayer where
  name : String
  steamId64 : Nat
  ipAddress : String
deriving Repr, DecidableEq

/-- `KZGlobalService::Init()`: reads the `apiURL` and `apiKey` options; an
empty key (first byte `\0`) leaves `apiKey` absent, a non-empty key is
stored. The remaining fields keep their static initializers. `Init` also
starts the Heartbeat timer; heartbeat delivery is modelled by folding
`HeartbeatOnResponse` over the responses the transport delivers. -/
def Init (apiURLOption : String) (apiKeyOption : String) : GlobalState :=
  { currentMap := none
    apiURL := apiURLOption
    isHealthy := false
    authTimerInitialized := false
    apiKey := if apiKeyOption = "" then none else some apiKeyOption
    authPayload := none
    apiToken := none }

/-- Whether a periodic task's `f64` return value keeps it scheduled: the
source returns `-1.0` to cancel and the fixed positive interval constant
(`heartbeatInterval` / `authInterval`, defined in `kz_global.h`) to run
again; only the sign is observable to the scheduler contract. -/
inductive TimerDisposition where
  | cancel
  | reschedule
deriving Repr, DecidableEq

/-- Result of one run of the Heartbeat completion callback: the updated
service state and whether this very callback executed
`StartTimer(Auth, ...)`. -/
structure HeartbeatEffect where
  state : GlobalState
  startedAuthTimer : Bool
deriving Repr, DecidableEq

/-- The completion callback of `KZGlobalService::Heartbeat()` (lines 52-93):
status `0` or any non-`200` status clears `isHealthy`; `200` without a body
clears `isHealthy`; `200` with a body sets `isHealthy` and, the first time
only, starts the Auth timer and marks it initialized. -/
def HeartbeatOnResponse (s : GlobalState) (response : Response) : HeartbeatEffect :=
  if response.status = 0 then
    ⟨{ s with isHealthy := false }, false⟩
  else if response.status = 200 then
    match response.body with
    | none => ⟨{ s with isHealthy := false }, false⟩
    | some _ =>
      if s.authTimerInitialized = false then
        ⟨{ s with isHealthy := true, authTimerInitialized := true }, true⟩
      else
        ⟨{ s with isHealthy := true }, false⟩
  else
    ⟨{ s with isHealthy := false }, false⟩

/-- `KZGlobalService::Heartbeat()` itself: issues `GET <apiURL>` and always
returns the fixed heartbeat interval (reschedule). -/
def Heartbeat (s : GlobalState) : HTTPRequest × TimerDisposition :=
  (⟨Method.GET, s.apiURL, none⟩, TimerDisposition.reschedule)

/-- Folds a sequence of heartbeat responses through `HeartbeatOnResponse`,
returning the final state and how many of the callbacks started the Auth
timer. -/
def runHeartbeats : GlobalState → List Response → GlobalState × Nat
  | s, [] => (s, 0)
  | s, r :: rest =>
    ((runHeartbeats (HeartbeatOnResponse s r).state rest).1,
      (if (HeartbeatOnResponse s r).startedAuthTimer then 1 else 0)
        + (runHeartbeats (HeartbeatOnResponse s r).state rest).2)

/-- Modelled from the spec: `VERSION_STRING` comes from `version.h`, which is
not under `src/`; its concrete value affects no property proved here. -/
def VERSION_STRING : String :=
  "dev"

/-- Modelled from the spec: the dump of the JSON object
`\x7b"refresh_key": key, "plugin_version": VERSION_STRING\x7d` is performed
by the external JSON codec (`utils/json.h`, not under `src/`); the exact
escaping is owned by the codec and never inspected here. -/
def authPayloadDump (key : String) : String :=
  "\x7b\"refresh_key\":\"" ++ key ++ "\",\"plugin_version\":\"" ++ VERSION_STRING ++ "\"\x7d"

/-- Result of one run of the `KZGlobalService::Auth()` task body: the state
after the run (the auth payload may have been built and cached), the request
it sent, if any, and its scheduling disposition. -/
structure AuthRun where
  state : GlobalState
  request : Option HTTPRequest
  delay : TimerDisposition
deriving Repr, DecidableEq

/-- `KZGlobalService::Auth()` (lines 98-171, the synchronous part): with no
API key it logs and returns `-1.0` (cancel) without touching any state or
sending anything; otherwise it lazily builds and caches the auth payload
once, `POST`s to `<apiURL>/servers/key`, and returns the fixed auth
interval. -/
def Auth (s : GlobalState) : AuthRun :=
  match s.apiKey with
  | none => ⟨s, none, TimerDisposition.cancel⟩
  | some key =>
    let payload :=
      match s.authPayload with
      | none => authPayloadDump key
      | some cached => cached
    ⟨{ s with authPayload := some payload },
      some ⟨Method.POST, s.apiURL ++ "/servers/key", none⟩,
      TimerDisposition.reschedule⟩

/-- The completion callback of `Auth` (lines 121-168): status `0` keeps
everything; `201` with a body whose decode yields an `access_key` overwrites
`apiToken` (a missing body or a shape mismatch keeps the previous token);
any other status builds and logs an `Error`, keeping the previous token.
`decodeAccessKey` stands for `json::parse` + object/field checks of the
external codec. -/
def AuthOnResponse (decodeAccessKey : String → Option String) (s : GlobalState)
    (response : Response) : GlobalState :=
  if response.status = 0 then
    s
  else if response.status = 201 then
    match response.body with
    | none => s
    | some raw =>
      match decodeAccessKey raw with
      | none => s
      | some token => { s with apiToken := some token }
  else
    s

/-- The synchronous result of a resource operation call: either the gate (or
the token read) stopped it, or it issued exactly one HTTP request.
`rejected e` means the function invoked the error callback synchronously
with `e` and returned `false`; `badOptionalAccess` means the call executed
`std::optional::value()` on an empty optional, which raises
`std::bad_optional_access` — no request is issued, no callback runs, and no
boolean is returned; `requested r` means the function issued `r` and
returned `true`. -/
inductive OpCall where
  | rejected (e : Error)
  | badOptionalAccess
  | requested (request : HTTPRequest)
deriving Repr, DecidableEq

/-- The boolean the C++ function returns for this call, absent when the call
raises instead of returning. -/
def OpCall.returnValue : OpCall → Option Bool
  | OpCall.rejected _ => some false
  | OpCall.badOptionalAccess => none
  | OpCall.requested _ => some true

/-- The errors delivered synchronously (before the function returns) to the
error callback during this call. -/
def OpCall.syncErrors : OpCall → List Error
  | OpCall.rejected e => [e]
  | OpCall.badOptionalAccess => []
  | OpCall.requested _ => []

/-- Whether this call handed a request to the HTTP transport. -/
def OpCall.requestIssued : OpCall → Bool
  | OpCall.rejected _ => false
  | OpCall.badOptionalAccess => false
  | OpCall.requested _ => true

/-- `FetchPlayerImpl` (lines 173-235), the synchronous part: unhealthy ⇒
invoke the error callback with `{503, "unreachable"}` and return `false`;
otherwise issue `GET url` and return `true`. -/
def FetchPlayerImpl (s : GlobalState) (url : String) : OpCall :=
  if s.IsHealthy = false then
    OpCall.rejected ⟨503, "unreachable"⟩
  else
    OpCall.requested ⟨Method.GET, url, none⟩

/-- What the `FetchPlayerImpl` completion callback does with the response. -/
inductive FetchOutcome (α : Type) where
  | noCallback
  | success (value : Option α)
  | failure (e : Error)
deriving Repr, DecidableEq

/-- The completion callback of `FetchPlayerImpl` (lines 185-232): status `0`
⇒ log only; `200` without a body ⇒ log only; `200` with a body ⇒ decode
(`json::parse` + `KZ::API::Player::Deserialize`, the external codec boundary,
modelled by `deserializePlayer`), invoking the success callback on a value
and logging only on failure; `404` ⇒ success callback with an absent value;
any other status ⇒ error callback with the normalized error. -/
def FetchPlayerImplOnResponse (deserializePlayer : String → Option Player)
    (response : Response) : FetchOutcome Player :=
  if response.status = 0 then
    FetchOutcome.noCallback
  else if response.status = 200 then
    match response.body with
    | none => FetchOutcome.noCallback
    | some raw =>
      match deserializePlayer raw with
      | none => FetchOutcome.noCallback
      | some player => FetchOutcome.success (some player)
  else if response.status = 404 then
    FetchOutcome.success none
  else
    FetchOutcome.failure (Error.ofResponse response.status (response.body.getD ""))

/-- `KZGlobalService::FetchPlayer(const char *name, ...)` (lines 237-242):
formats `<apiURL>/players/<name>` and calls `FetchPlayerImpl`. -/
def FetchPlayerByName (s : GlobalState) (name : String) : OpCall :=
  FetchPlayerImpl s (s.apiURL ++ "/players/" ++ name)

/-- `KZGlobalService::FetchPlayer(u64 steamID, ...)` (lines 244-249):
formats `<apiURL>/players/<steamID>` (`%llu`, decimal) and calls
`FetchPlayerImpl`. -/
def FetchPlayerBySteamID (s : GlobalState) (steamID : Nat) : OpCall :=
  FetchPlayerImpl s (s.apiURL ++ "/players/" ++ toString steamID)

/-- `KZGlobalService::RegisterPlayer` (lines 251-319), the synchronous part:
unhealthy ⇒ error callback `{503, "unreachable"}`, return `false`; not
authenticated ⇒ error callback `{401, "server is not global"}`, return
`false`; otherwise `POST <apiURL>/players` with header
`Authorization: Bearer <apiToken.value()>` and return `true`. The `none`
branch of the token match mirrors `std::optional::value()` raising on an
empty optional; it is unreachable here because the authentication gate ran
first. -/
def RegisterPlayer (s : GlobalState) (_player : KZPlayer) : OpCall :=
  if s.IsHealthy = false then
    OpCall.rejected ⟨503, "unreachable"⟩
  else if s.IsAuthenticated = false then
    OpCall.rejected ⟨401, "server is not global"⟩
  else
    match s.apiToken with
    | none => OpCall.badOptionalAccess
    | some token =>
      OpCall.requested ⟨Method.POST, s.apiURL ++ "/players", some ("Bearer " ++ token)⟩

/-- What the `RegisterPlayer` completion callback does with the response:
nothing (transport failure), one follow-up `FetchPlayer` by steam ID, or one
error-callback invocation. -/
inductive RegisterOutcome where
  | noCallback
  | followUpFetch (steamID : Nat)
  | failure (e : Error)
deriving Repr, DecidableEq

/-- The completion callback of `RegisterPlayer` (lines 278-316): status `0`
⇒ log only; `201` ⇒ call `KZGlobalService::FetchPlayer(player->GetSteamId64(),
...)` once (the nested callbacks of that fetch update the player record and
print chat messages); any other status ⇒ error callback with the normalized
error. -/
def RegisterPlayerOnResponse (player : KZPlayer) (response : Response) : RegisterOutcome :=
  if response.status = 0 then
    RegisterOutcome.noCallback
  else if response.status = 201 then
    RegisterOutcome.followUpFetch player.steamId64
  else
    RegisterOutcome.failure (Error.ofResponse response.status (response.body.getD ""))

/-- `KZGlobalService::UpdatePlayer` (lines 321-367), the synchronous part:
unhealthy ⇒ callback with `{503, "unreachable"}`, return `false`; then —
with no authentication gate — `apiToken.value()` is read to build the
`Authorization` header: on an absent token this raises
`std::bad_optional_access` (no request, no callback, no return value);
otherwise `PATCH <apiURL>/players/<steamId64>` is issued and `true`
returned. -/
def UpdatePlayer (s : GlobalState) (player : KZPlayer) : OpCall :=
  if s.IsHealthy = false then
    OpCall.rejected ⟨503, "unreachable"⟩
  else
    match s.apiToken with
    | none => OpCall.badOptionalAccess
    | some token =>
      OpCall.requested
        ⟨Method.PATCH, s.apiURL ++ "/players/" ++ toString player.steamId64,
          some ("Bearer " ++ token)⟩

/-- What the `UpdatePlayer` completion callback does with the response: the
single callback doubles as the result channel, receiving an absent error on
success. -/
inductive UpdateOutcome where
  | noCallback
  | success
  | failure (e : Error)
deriving Repr, DecidableEq

/-- The completion callback of `UpdatePlayer` (lines 342-364): status `0` ⇒
log only; `204` ⇒ callback with an absent error; any other status ⇒ callback
with the normalized error. -/
def UpdatePlayerOnResponse (response : Response) : UpdateOutcome :=
  if response.status = 0 then
    UpdateOutcome.noCallback
  else if response.status = 204 then
    UpdateOutcome.success
  else
    UpdateOutcome.failure (Error.ofResponse response.status (response.body.getD ""))

/-- `FetchMapImpl` (lines 369-431), the synchronous part: identical gate to
`FetchPlayerImpl`. -/
def FetchMapImpl (s : GlobalState) (url : String) : OpCall :=
  if s.IsHealthy = false then
    OpCall.rejected ⟨503, "unreachable"⟩
  else
    OpCall.requested ⟨Method.GET, url, none⟩

/-- The completion callback of `FetchMapImpl` (lines 381-428): the same
classification as the player fetch, with `KZ::API::Map::Deserialize` as the
decode boundary (`deserializeMap`). -/
def FetchMapImplOnResponse (deserializeMap : String → Option Map)
    (response : Response) : FetchOutcome Map :=
  if response.status = 0 then
    FetchOutcome.noCallback
  else if response.status = 200 then
    match response.body with
    | none => FetchOutcome.noCallback
    | some raw =>
      match deserializeMap raw with
      | none => FetchOutcome.noCallback
      | some map => FetchOutcome.success (some map)
  else if response.status = 404 then
    FetchOutcome.success none
  else
    FetchOutcome.failure (Error.ofResponse response.status (response.body.getD ""))

/-- `KZGlobalService::FetchMap(const char *name, ...)` (lines 433-438). -/
def FetchMapByName (s : GlobalState) (name : String) : OpCall :=
  FetchMapImpl s (s.apiURL ++ "/maps/" ++ name)

/-- `KZGlobalService::FetchMap(u16 id, ...)` (lines 440-445): `%d`,
decimal. -/
def FetchMapById (s : GlobalState) (id : Nat) : OpCall :=
  FetchMapImpl s (s.apiURL ++ "/maps/" ++ toString id)

end KZGlobal

namespace KZGlobal

/-! ### Helper lemmas -/

/-- The default branch of the player-fetch callback: any status other than
0/200/404 produces the normalized error. -/
theorem fetchPlayer_response_default (deserializePlayer : String → Option Player)
    (response : Response) (h0 : response.status ≠ 0) (h200 : response.status ≠ 200)
    (h404 : response.status ≠ 404) :
    FetchPlayerImplOnResponse deserializePlayer response =
      FetchOutcome.failure (Error.ofResponse response.status (response.body.getD "")) := by
  simp [FetchPlayerImplOnResponse, h0, h200, h404]

/-- The default branch of the map-fetch callback. -/
theorem fetchMap_response_default (deserializeMap : String → Option Map)
    (response : Response) (h0 : response.status ≠ 0) (h200 : response.status ≠ 200)
    (h404 : response.status ≠ 404) :
    FetchMapImplOnResponse deserializeMap response =
      FetchOutcome.failure (Error.ofResponse response.status (response.body.getD "")) := by
  simp [FetchMapImplOnResponse, h0, h200, h404]

/-- One heartbeat callback leaves `isHealthy` equal to the classification of
the response it handled: 200 with a body. -/
theorem heartbeat_isHealthy_classifies (s : GlobalState) (r : Response) :
    (HeartbeatOnResponse s r).state.isHealthy = (decide (r.status = 200) && r.body.isSome) := by
  obtain ⟨status, body⟩ := r
  by_cases h0 : status = 0
  · subst h0; simp [HeartbeatOnResponse]
  · by_cases h200 : status = 200
    · subst h200
      cases body with
      | none => simp [HeartbeatOnResponse, h0]
      | some b =>
        by_cases hA : s.authTimerInitialized = false <;>
          simp [HeartbeatOnResponse, h0, hA]
    · simp [HeartbeatOnResponse, h0, h200]

/-- Folding `rs ++ [r]` runs `rs` first, then the final response. -/
theorem runHeartbeats_append_last (s : GlobalState) (rs : List Response) (r : Response) :
    (runHeartbeats s (rs ++ [r])).1 = (HeartbeatOnResponse (runHeartbeats s rs).1 r).state := by
  induction rs generalizing s with
  | nil => rfl
  | cons x xs ih =>
    simp only [List.cons_append, runHeartbeats]
    exact ih (HeartbeatOnResponse s x).state

/-- A heartbeat callback starts the Auth timer only on a 200-with-body
response, and only when the timer was not yet initialized. -/
theorem heartbeat_started_only_on_200_with_body (s : GlobalState) (r : Response)
    (h : (HeartbeatOnResponse s r).startedAuthTimer = true) :
    r.status = 200 ∧ r.body.isSome = true ∧ s.authTimerInitialized = false := by
  obtain ⟨status, body⟩ := r
  by_cases h0 : status = 0
  · subst h0; simp [HeartbeatOnResponse] at h
  · by_cases h200 : status = 200
    · subst h200
      cases body with
      | none => simp [HeartbeatOnResponse, h0] at h
      | some b =>
        by_cases hA : s.authTimerInitialized = false
        · exact ⟨rfl, rfl, hA⟩
        · simp [HeartbeatOnResponse, h0, hA] at h
    · simp [HeartbeatOnResponse, h0, h200] at h

/-- After a heartbeat callback, the timer guard is the old guard or-ed with
"this callback started the timer": the guard never resets. -/
theorem heartbeat_authTimer_after (s : GlobalState) (r : Response) :
    (HeartbeatOnResponse s r).state.authTimerInitialized =
      (s.authTimerInitialized || (HeartbeatOnResponse s r).startedAuthTimer) := by
  obtain ⟨status, body⟩ := r
  by_cases h0 : status = 0
  · subst h0; simp [HeartbeatOnResponse]
  · by_cases h200 : status = 200
    · subst h200
      cases body with
      | none => simp [HeartbeatOnResponse, h0]
      | some b =>
        by_cases hA : s.authTimerInitialized = false
        · simp [HeartbeatOnResponse, h0, hA]
        · have : s.authTimerInitialized = true := by
            cases hb : s.authTimerInitialized
            · exact absurd hb hA
            · rfl
          simp [HeartbeatOnResponse, h0, hA, this]
    · simp [HeartbeatOnResponse, h0, h200]

/-- Over any heartbeat sequence, the number of Auth-timer starts is bounded
by 1 starting from an uninitialized guard, and by 0 from an initialized
one. -/
theorem runHeartbeats_starts_bound (rs : List Response) (s : GlobalState) :
    (runHeartbeats s rs).2 ≤ if s.authTimerInitialized = true then 0 else 1 := by
  induction rs generalizing s with
  | nil =>
    simp only [runHeartbeats]
    by_cases hA : s.authTimerInitialized = true <;> simp [hA]
  | cons r rest ih =>
    have hrest := ih (HeartbeatOnResponse s r).state
    have hmono := heartbeat_authTimer_after s r
    simp only [runHeartbeats]
    cases hstart : (HeartbeatOnResponse s r).startedAuthTimer with
    | true =>
      have h3 := heartbeat_started_only_on_200_with_body s r hstart
      rw [hstart, Bool.or_true] at hmono
      rw [hmono] at hrest
      simp at hrest
      simp [h3.2.2]
      omega
    | false =>
      rw [hstart, Bool.or_false] at hmono
      rw [hmono] at hrest
      by_cases hA : s.authTimerInitialized = true <;> simp [hA] at hrest ⊢ <;> omega

end KZGlobal

namespace KZGlobal

/-! ### Claim theorems -/

/-- C1: for every Fetch operation (player by name or steam ID, map by name or
id) whose gate passes, a 404 response invokes the success callback with an
absent value and never the error callback, and a response with any status in
{400, 401, 403, 429, 500, 502, 503} invokes the error callback with an
`Error` whose `status` field equals that response status. -/
theorem C1_fetch_404_and_error_statuses
    (deserializePlayer : String → Option Player) (deserializeMap : String → Option Map)
    (response : Response) :
    (response.status = 404 →
      FetchPlayerImplOnResponse deserializePlayer response = FetchOutcome.success none ∧
      FetchMapImplOnResponse deserializeMap response = FetchOutcome.success none) ∧
    (response.status ∈ [400, 401, 403, 429, 500, 502, 503] →
      (∃ e, FetchPlayerImplOnResponse deserializePlayer response = FetchOutcome.failure e ∧
        e.status = response.status) ∧
      (∃ e, FetchMapImplOnResponse deserializeMap response = FetchOutcome.failure e ∧
        e.status = response.status)) := by
  constructor
  · intro h
    constructor
    · simp [FetchPlayerImplOnResponse, h]
    · simp [FetchMapImplOnResponse, h]
  · intro h
    simp only [List.mem_cons, List.not_mem_nil, or_false] at h
    have hs : response.status ≠ 0 ∧ response.status ≠ 200 ∧ response.status ≠ 404 := by
      rcases h with h | h | h | h | h | h | h <;> simp [h]
    exact ⟨⟨_, fetchPlayer_response_default deserializePlayer response hs.1 hs.2.1 hs.2.2, rfl⟩,
      ⟨_, fetchMap_response_default deserializeMap response hs.1 hs.2.1 hs.2.2, rfl⟩⟩

/-- C1 witness: the theorem applied at a 404 response and at a 400
response. -/
theorem C1_fetch_404_and_error_statuses_witness :
    (FetchPlayerImplOnResponse (fun _ => none) ⟨404, none⟩ = FetchOutcome.success none ∧
      FetchMapImplOnResponse (fun _ => none) ⟨404, none⟩ = FetchOutcome.success none) ∧
    ((∃ e, FetchPlayerImplOnResponse (fun _ => none) ⟨400, some "bad request"⟩ =
        FetchOutcome.failure e ∧ e.status = 400) ∧
      (∃ e, FetchMapImplOnResponse (fun _ => none) ⟨400, some "bad request"⟩ =
        FetchOutcome.failure e ∧ e.status = 400)) :=
  ⟨(C1_fetch_404_and_error_statuses (fun _ => none) (fun _ => none) ⟨404, none⟩).1 rfl,
    (C1_fetch_404_and_error_statuses (fun _ => none) (fun _ => none)
      ⟨400, some "bad request"⟩).2 (by decide)⟩

/-- C2: every resource operation called while `isHealthy` is false issues no
request (the result is a synchronous rejection, never `requested`) and
invokes the error callback synchronously with `{503, "unreachable"}`. -/
theorem C2_unhealthy_rejects_every_operation (s : GlobalState) (url name : String)
    (steamID mapId : Nat) (player : KZPlayer) (h : s.isHealthy = false) :
    FetchPlayerImpl s url = OpCall.rejected ⟨503, "unreachable"⟩ ∧
    FetchPlayerByName s name = OpCall.rejected ⟨503, "unreachable"⟩ ∧
    FetchPlayerBySteamID s steamID = OpCall.rejected ⟨503, "unreachable"⟩ ∧
    FetchMapImpl s url = OpCall.rejected ⟨503, "unreachable"⟩ ∧
    FetchMapByName s name = OpCall.rejected ⟨503, "unreachable"⟩ ∧
    FetchMapById s mapId = OpCall.rejected ⟨503, "unreachable"⟩ ∧
    RegisterPlayer s player = OpCall.rejected ⟨503, "unreachable"⟩ ∧
    UpdatePlayer s player = OpCall.rejected ⟨503, "unreachable"⟩ := by
  refine ⟨?_, ?_, ?_, ?_, ?_, ?_, ?_, ?_⟩ <;>
    simp [FetchPlayerImpl, FetchPlayerByName, FetchPlayerBySteamID, FetchMapImpl,
      FetchMapByName, FetchMapById, RegisterPlayer, UpdatePlayer, GlobalState.IsHealthy, h]

/-- C2 witness: the theorem applied at a concrete unhealthy state. -/
theorem C2_unhealthy_rejects_every_operation_witness :
    FetchPlayerImpl ⟨none, "https://api.cs2kz.org", false, false, none, none, none⟩
        "https://api.cs2kz.org/players/zer0k" = OpCall.rejected ⟨503, "unreachable"⟩ :=
  (C2_unhealthy_rejects_every_operation
    ⟨none, "https://api.cs2kz.org", false, false, none, none, none⟩
    "https://api.cs2kz.org/players/zer0k" "zer0k" 76561198282622073 4
    ⟨"zer0k", 76561198282622073, "127.0.0.1"⟩ rfl).1

end KZGlobal

namespace KZGlobal

/-- C3 counterexample: with the API healthy and no access token ever set,
`UpdatePlayer` does not fail immediately with `{401, "server is not
global"}`: it reads the absent token (`std::optional::value()` on an empty
optional) and aborts, invoking no error callback at all. -/
theorem C3_counterexample_update_never_checks_auth :
    UpdatePlayer ⟨none, "https://api.cs2kz.org", true, true, none, none, none⟩
        ⟨"zer0k", 76561198282622073, "127.0.0.1"⟩ = OpCall.badOptionalAccess ∧
    OpCall.badOptionalAccess ≠ OpCall.rejected ⟨401, "server is not global"⟩ ∧
    OpCall.syncErrors OpCall.badOptionalAccess = [] := by
  refine ⟨rfl, ?_, rfl⟩
  intro h
  exact OpCall.noConfusion h

/-- C3 (amended): when the health gate passes and no access token is
present, `RegisterPlayer` fails immediately with `{401, "server is not
global"}` before any HTTP request is issued; `UpdatePlayer` performs no such
authentication check and instead aborts reading the absent token (no
request, no callback, no 401). -/
theorem C3_auth_gate_register_only (s : GlobalState) (player : KZPlayer)
    (hh : s.isHealthy = true) (ht : s.apiToken = none) :
    RegisterPlayer s player = OpCall.rejected ⟨401, "server is not global"⟩ ∧
    UpdatePlayer s player = OpCall.badOptionalAccess := by
  constructor
  · simp [RegisterPlayer, GlobalState.IsHealthy, GlobalState.IsAuthenticated, hh, ht]
  · simp [UpdatePlayer, GlobalState.IsHealthy, hh, ht]

/-- C3 witness: the amended theorem applied at a concrete healthy,
token-less state. -/
theorem C3_auth_gate_register_only_witness :
    RegisterPlayer ⟨none, "https://api.cs2kz.org", true, true, none, none, none⟩
        ⟨"zer0k", 76561198282622073, "127.0.0.1"⟩ =
      OpCall.rejected ⟨401, "server is not global"⟩ :=
  (C3_auth_gate_register_only ⟨none, "https://api.cs2kz.org", true, true, none, none, none⟩
    ⟨"zer0k", 76561198282622073, "127.0.0.1"⟩ rfl rfl).1

/-- C4: after any heartbeat-response sequence, `isHealthy` equals exactly the
classification of the most recent response: true if and only if it had
status 200 and a body (transport failures, non-200 statuses, and body-less
200 responses all clear it). -/
theorem C4_isHealthy_tracks_last_heartbeat (s : GlobalState) (rs : List Response)
    (r : Response) :
    (runHeartbeats s (rs ++ [r])).1.isHealthy = (decide (r.status = 200) && r.body.isSome) := by
  rw [runHeartbeats_append_last]
  exact heartbeat_isHealthy_classifies _ r

/-- C5 counterexample: `Init` with an empty API key option stores no key,
yet the first 200-with-body heartbeat callback still executes
`StartTimer(Auth, ...)` — the Auth periodic task is started even though no
API key was configured. -/
theorem C5_counterexample_auth_timer_starts_without_key :
    (Init "https://api.cs2kz.org" "").apiKey = none ∧
    (HeartbeatOnResponse (Init "https://api.cs2kz.org" "")
        ⟨200, some "healthy"⟩).startedAuthTimer = true := by
  constructor
  · rfl
  · rfl

/-- C5 (amended): the Auth periodic task is started at most once per process
and only from a heartbeat callback that observed a 200-with-body response;
when no API key was configured the timer is nevertheless started, but its
first run issues no HTTP request, changes no state, and returns a negative
delay that cancels the task. -/
theorem C5_auth_timer_discipline (s : GlobalState) (rs : List Response) (r : Response)
    (hinit : s.authTimerInitialized = false) :
    (runHeartbeats s rs).2 ≤ 1 ∧
    ((HeartbeatOnResponse s r).startedAuthTimer = true →
      r.status = 200 ∧ r.body.isSome = true) ∧
    (s.apiKey = none →
      (Auth s).request = none ∧ (Auth s).delay = TimerDisposition.cancel ∧ (Auth s).state = s) := by
  refine ⟨?_, ?_, ?_⟩
  · have hb := runHeartbeats_starts_bound rs s
    rw [hinit] at hb
    simpa using hb
  · intro h
    exact ⟨(heartbeat_started_only_on_200_with_body s r h).1,
      (heartbeat_started_only_on_200_with_body s r h).2.1⟩
  · intro hk
    simp [Auth, hk]

/-- C5 witness: the amended theorem applied at the key-less `Init` state
with one healthy heartbeat. -/
theorem C5_auth_timer_discipline_witness :
    (runHeartbeats (Init "https://api.cs2kz.org" "") [⟨200, some "healthy"⟩]).2 ≤ 1 ∧
    ((HeartbeatOnResponse (Init "https://api.cs2kz.org" "")
        ⟨200, some "healthy"⟩).startedAuthTimer = true →
      (200 : Nat) = 200 ∧ (some "healthy" : Option String).isSome = true) ∧
    (Auth (Init "https://api.cs2kz.org" "")).request = none :=
  ⟨(C5_auth_timer_discipline (Init "https://api.cs2kz.org" "") [⟨200, some "healthy"⟩]
      ⟨200, some "healthy"⟩ rfl).1,
    (C5_auth_timer_discipline (Init "https://api.cs2kz.org" "") [⟨200, some "healthy"⟩]
      ⟨200, some "healthy"⟩ rfl).2.1,
    ((C5_auth_timer_discipline (Init "https://api.cs2kz.org" "") [⟨200, some "healthy"⟩]
      ⟨200, some "healthy"⟩ rfl).2.2 rfl).1⟩

end KZGlobal

namespace KZGlobal

/-- C6: for every `RegisterPlayer` whose gate passes, a 201 response triggers
exactly one follow-up `FetchPlayer` by the player's steam ID (and no error
callback), and any other non-zero status invokes the error callback with a
normalized `Error` whose status matches the response, triggering no
follow-up fetch. -/
theorem C6_register_response_classification (player : KZPlayer) (response : Response) :
    (response.status = 201 →
      RegisterPlayerOnResponse player response = RegisterOutcome.followUpFetch player.steamId64) ∧
    (response.status ≠ 0 → response.status ≠ 201 →
      ∃ e, RegisterPlayerOnResponse player response = RegisterOutcome.failure e ∧
        e.status = response.status) := by
  constructor
  · intro h
    simp [RegisterPlayerOnResponse, h]
  · intro h0 h201
    exact ⟨Error.ofResponse response.status (response.body.getD ""),
      by simp [RegisterPlayerOnResponse, h0, h201], rfl⟩

/-- C6 witness: the theorem applied at a 201 response and at a 409
response. -/
theorem C6_register_response_classification_witness :
    RegisterPlayerOnResponse ⟨"zer0k", 76561198282622073, "127.0.0.1"⟩ ⟨201, some "created"⟩ =
      RegisterOutcome.followUpFetch 76561198282622073 ∧
    (∃ e, RegisterPlayerOnResponse ⟨"zer0k", 76561198282622073, "127.0.0.1"⟩
        ⟨409, some "conflict"⟩ = RegisterOutcome.failure e ∧ e.status = 409) :=
  ⟨(C6_register_response_classification ⟨"zer0k", 76561198282622073, "127.0.0.1"⟩
      ⟨201, some "created"⟩).1 rfl,
    (C6_register_response_classification ⟨"zer0k", 76561198282622073, "127.0.0.1"⟩
      ⟨409, some "conflict"⟩).2 (by decide) (by decide)⟩

/-- C7: for every `UpdatePlayer` whose gate passes, a 204 response invokes
the result callback with an absent error, any other non-zero status invokes
it with a populated `Error` whose status matches the response, and a
transport failure (status 0) invokes no callback. -/
theorem C7_update_response_classification (response : Response) :
    (response.status = 204 → UpdatePlayerOnResponse response = UpdateOutcome.success) ∧
    (response.status ≠ 0 → response.status ≠ 204 →
      ∃ e, UpdatePlayerOnResponse response = UpdateOutcome.failure e ∧
        e.status = response.status) ∧
    (response.status = 0 → UpdatePlayerOnResponse response = UpdateOutcome.noCallback) := by
  refine ⟨?_, ?_, ?_⟩
  · intro h
    simp [UpdatePlayerOnResponse, h]
  · intro h0 h204
    exact ⟨Error.ofResponse response.status (response.body.getD ""),
      by simp [UpdatePlayerOnResponse, h0, h204], rfl⟩
  · intro h
    simp [UpdatePlayerOnResponse, h]

/-- C7 witness: the theorem applied at 204, 403, and 0 responses. -/
theorem C7_update_response_classification_witness :
    UpdatePlayerOnResponse ⟨204, none⟩ = UpdateOutcome.success ∧
    (∃ e, UpdatePlayerOnResponse ⟨403, some "forbidden"⟩ = UpdateOutcome.failure e ∧
      e.status = 403) ∧
    UpdatePlayerOnResponse ⟨0, none⟩ = UpdateOutcome.noCallback :=
  ⟨(C7_update_response_classification ⟨204, none⟩).1 rfl,
    (C7_update_response_classification ⟨403, some "forbidden"⟩).2.1 (by decide) (by decide),
    (C7_update_response_classification ⟨0, none⟩).2.2 rfl⟩

/-- C8: for every Fetch operation whose gate passes, a transport failure
(status 0), a 200 response without a body, or a 200 response whose body
fails to decode into the resource type is only logged: neither the success
callback nor the error callback is invoked. -/
theorem C8_fetch_silent_failures (deserializePlayer : String → Option Player)
    (deserializeMap : String → Option Map) (response : Response) (raw : String) :
    (response.status = 0 →
      FetchPlayerImplOnResponse deserializePlayer response = FetchOutcome.noCallback ∧
      FetchMapImplOnResponse deserializeMap response = FetchOutcome.noCallback) ∧
    (response.status = 200 → response.body = none →
      FetchPlayerImplOnResponse deserializePlayer response = FetchOutcome.noCallback ∧
      FetchMapImplOnResponse deserializeMap response = FetchOutcome.noCallback) ∧
    (response.status = 200 → response.body = some raw → deserializePlayer raw = none →
      FetchPlayerImplOnResponse deserializePlayer response = FetchOutcome.noCallback) ∧
    (response.status = 200 → response.body = some raw → deserializeMap raw = none →
      FetchMapImplOnResponse deserializeMap response = FetchOutcome.noCallback) := by
  refine ⟨?_, ?_, ?_, ?_⟩
  · intro h
    exact ⟨by simp [FetchPlayerImplOnResponse, h], by simp [FetchMapImplOnResponse, h]⟩
  · intro h hb
    exact ⟨by simp [FetchPlayerImplOnResponse, h, hb], by simp [FetchMapImplOnResponse, h, hb]⟩
  · intro h hb hd
    simp [FetchPlayerImplOnResponse, h, hb, hd]
  · intro h hb hd
    simp [FetchMapImplOnResponse, h, hb, hd]

/-- C8 witness: the theorem applied at a transport failure, a body-less 200,
and a 200 whose body fails to decode. -/
theorem C8_fetch_silent_failures_witness :
    (FetchPlayerImplOnResponse (fun _ => none) ⟨0, none⟩ = FetchOutcome.noCallback ∧
      FetchMapImplOnResponse (fun _ => none) ⟨0, none⟩ = FetchOutcome.noCallback) ∧
    (FetchPlayerImplOnResponse (fun _ => none) ⟨200, none⟩ = FetchOutcome.noCallback ∧
      FetchMapImplOnResponse (fun _ => none) ⟨200, none⟩ = FetchOutcome.noCallback) ∧
    FetchPlayerImplOnResponse (fun _ => none) ⟨200, some "not a player"⟩ =
      FetchOutcome.noCallback ∧
    FetchMapImplOnResponse (fun _ => none) ⟨200, some "not a map"⟩ = FetchOutcome.noCallback :=
  ⟨(C8_fetch_silent_failures (fun _ => none) (fun _ => none) ⟨0, none⟩ "").1 rfl,
    (C8_fetch_silent_failures (fun _ => none) (fun _ => none) ⟨200, none⟩ "").2.1 rfl rfl,
    (C8_fetch_silent_failures (fun _ => none) (fun _ => none) ⟨200, some "not a player"⟩
      "not a player").2.2.1 rfl rfl rfl,
    (C8_fetch_silent_failures (fun _ => none) (fun _ => none) ⟨200, some "not a map"⟩
      "not a map").2.2.2 rfl rfl rfl⟩

end KZGlobal

namespace KZGlobal

/-- The return-value contract of a resource-operation call against the gate
outcome `gatesPassed`: a boolean is returned, it is `true` exactly when the
gates passed and a request was handed to the transport, and a `false` return
is preceded by exactly one synchronous error-callback invocation. -/
def returnsBoolContract (c : OpCall) (gatesPassed : Bool) : Prop :=
  (c.returnValue = some true ↔ (gatesPassed = true ∧ c.requestIssued = true)) ∧
  (c.returnValue = some false → (OpCall.syncErrors c).length = 1) ∧
  (OpCall.returnValue c).isSome = true

/-- C9 counterexample: with the API healthy and no access token ever set,
`UpdatePlayer` does not issue any HTTP request — reading the absent token to
build the `Authorization` header aborts the call
(`std::optional::value()` raises on an empty optional), so no request with a
malformed header is ever sent. -/
theorem C9_counterexample_no_request_without_token :
    (UpdatePlayer ⟨none, "https://api.cs2kz.org", true, false, none, none, none⟩
        ⟨"zer0k", 76561198282622073, "127.0.0.1"⟩).requestIssued = false ∧
    UpdatePlayer ⟨none, "https://api.cs2kz.org", true, false, none, none, none⟩
        ⟨"zer0k", 76561198282622073, "127.0.0.1"⟩ = OpCall.badOptionalAccess :=
  ⟨rfl, rfl⟩

/-- C9 (amended): for every `UpdatePlayer` call made while `isHealthy` is
true but no access token has ever been set, the operation indeed does not
fail fast with an authentication error (no 401 rejection, no synchronous
error callback); but instead of issuing a request with a malformed
`Authorization` header, it aborts on reading the absent token, so no request
is issued at all. -/
theorem C9_update_without_token_aborts (s : GlobalState) (player : KZPlayer)
    (hh : s.isHealthy = true) (ht : s.apiToken = none) :
    UpdatePlayer s player = OpCall.badOptionalAccess ∧
    UpdatePlayer s player ≠ OpCall.rejected ⟨401, "server is not global"⟩ ∧
    (UpdatePlayer s player).syncErrors = [] ∧
    (UpdatePlayer s player).requestIssued = false := by
  have hu : UpdatePlayer s player = OpCall.badOptionalAccess := by
    simp [UpdatePlayer, GlobalState.IsHealthy, hh, ht]
  refine ⟨hu, ?_, ?_, ?_⟩
  · rw [hu]
    intro h
    exact OpCall.noConfusion h
  · rw [hu]
    rfl
  · rw [hu]
    rfl

/-- C9 witness: the amended theorem applied at a concrete healthy,
token-less state. -/
theorem C9_update_without_token_aborts_witness :
    UpdatePlayer ⟨none, "https://api.cs2kz.org", true, true, none, none, none⟩
        ⟨"GameChaos", 76561198061962055, "10.0.0.2"⟩ = OpCall.badOptionalAccess :=
  (C9_update_without_token_aborts ⟨none, "https://api.cs2kz.org", true, true, none, none, none⟩
    ⟨"GameChaos", 76561198061962055, "10.0.0.2"⟩ rfl rfl).1

/-- C10 counterexample: `UpdatePlayer` called on a healthy state with no
access token returns no boolean at all — the call aborts on the absent
token — so not every public resource operation returns a boolean, and in
particular this call neither issued a request nor invoked the error
callback. -/
theorem C10_counterexample_update_returns_nothing :
    (UpdatePlayer ⟨none, "https://api.cs2kz.org", true, false, none, none, none⟩
        ⟨"szwagi", 76561198165203332, "192.168.0.10"⟩).returnValue = none ∧
    (UpdatePlayer ⟨none, "https://api.cs2kz.org", true, false, none, none, none⟩
        ⟨"szwagi", 76561198165203332, "192.168.0.10"⟩).syncErrors = [] :=
  ⟨rfl, rfl⟩

/-- C10 (amended): every public resource operation returns a boolean that is
true if and only if its gate checks passed and an HTTP request was issued,
and whenever it returns false the error callback has been invoked
synchronously exactly once — except `UpdatePlayer` called while healthy with
no access token set, which aborts before returning (no boolean, no request,
no callback); `UpdatePlayer` satisfies the contract whenever a token is set
or the health gate fails. -/
theorem C10_return_value_contract (s : GlobalState) (url name : String)
    (steamID mapId : Nat) (player : KZPlayer) :
    returnsBoolContract (FetchPlayerImpl s url) s.isHealthy ∧
    returnsBoolContract (FetchPlayerByName s name) s.isHealthy ∧
    returnsBoolContract (FetchPlayerBySteamID s steamID) s.isHealthy ∧
    returnsBoolContract (FetchMapImpl s url) s.isHealthy ∧
    returnsBoolContract (FetchMapByName s name) s.isHealthy ∧
    returnsBoolContract (FetchMapById s mapId) s.isHealthy ∧
    returnsBoolContract (RegisterPlayer s player) (s.isHealthy && s.apiToken.isSome) ∧
    ((s.isHealthy = false ∨ s.apiToken.isSome = true) →
      returnsBoolContract (UpdatePlayer s player) s.isHealthy) ∧
    ((UpdatePlayer s player).returnValue = none ↔
      (s.isHealthy = true ∧ s.apiToken = none)) := by
  cases hh : s.isHealthy <;> cases ht : s.apiToken <;>
    simp [returnsBoolContract, FetchPlayerImpl, FetchPlayerByName, FetchPlayerBySteamID,
      FetchMapImpl, FetchMapByName, FetchMapById, RegisterPlayer, UpdatePlayer,
      GlobalState.IsHealthy, GlobalState.IsAuthenticated, OpCall.returnValue,
      OpCall.requestIssued, OpCall.syncErrors, hh, ht]

/-- C10 witness: the amended theorem applied at a healthy, authenticated
state, where `UpdatePlayer` does satisfy the contract. -/
theorem C10_return_value_contract_witness :
    returnsBoolContract
      (UpdatePlayer ⟨none, "https://api.cs2kz.org", true, true, none, none, some "tok123"⟩
        ⟨"zer0k", 76561198282622073, "127.0.0.1"⟩) true :=
  (C10_return_value_contract ⟨none, "https://api.cs2kz.org", true, true, none, none, some "tok123"⟩
    "https://api.cs2kz.org/players/zer0k" "zer0k" 76561198282622073 4
    ⟨"zer0k", 76561198282622073, "127.0.0.1"⟩).2.2.2.2.2.2.2.1 (Or.inr rfl)

end KZGlobal
